import Mathlib

/-!
Shallow embedding of the Analytics-Program network monitor
(`src/network_monitor/server.py` and `src/network_monitor/app.py`)
together with proofs about its capture buffer, statistics counters,
MITM indicators, discovery guard and router-lease import.
-/

namespace NetworkMonitor

/-! ## Python string primitives

The Python code manipulates strings with `str.strip()`, `str.lower()`,
`str.split(...)` and friends.  These are embedded here as structurally
recursive functions on the character list of the string, so that every
definition in this file evaluates by kernel reduction. -/

/-- Python `s.strip()`: drop leading and trailing whitespace. -/
def pyStrip (s : String) : String :=
  String.mk (((s.data.dropWhile Char.isWhitespace).reverse.dropWhile Char.isWhitespace).reverse)

/-- Python `s.lower()` (ASCII case folding). -/
def pyLower (s : String) : String :=
  String.mk (s.data.map Char.toLower)

/-- Split a character list at every character satisfying `p`, keeping empty
chunks (the behaviour of Python `str.split(sep)` for a one-character `sep`). -/
def splitCharsAt (p : Char → Bool) : List Char → List (List Char)
  | [] => [[]]
  | c :: rest =>
    let r := splitCharsAt p rest
    if p c then [] :: r
    else
      match r with
      | [] => [[c]]
      | chunk :: more => (c :: chunk) :: more

/-- Python `s.split(d)` for a one-character delimiter `d`. -/
def pySplitChar (s : String) (d : Char) : List String :=
  (splitCharsAt (fun c => c == d) s.data).map String.mk

/-- Python `re.split(r"\s+", s)` on an already-stripped `s`: the maximal
whitespace-free tokens of `s`. -/
def pySplitWs (s : String) : List String :=
  (splitCharsAt Char.isWhitespace s.data).map String.mk |>.filter (fun t => t != "")

/-- Python `s.splitlines()` restricted to `\n` line endings (a stray `\r`
is removed by the `strip()` every caller applies to each line). -/
def pySplitLines (s : String) : List String :=
  pySplitChar s '\n'

/-- Python `c in s` for a one-character `c`. -/
def pyContainsChar (s : String) (c : Char) : Bool :=
  s.data.any (fun ch => ch == c)

/-! ## server.py : CaptureState data model -/

/-- The six aggregate counters held in `CaptureState._stats`
(`server.py` lines 38-45). -/
structure Stats where
  packets_total : Nat
  packets_in : Nat
  packets_out : Nat
  bytes_total : Nat
  bytes_in : Nat
  bytes_out : Nat
deriving Repr, DecidableEq

/-- The zeroed counter dictionary installed by `__init__` and by a fresh
`start()` (`for k in self._stats: self._stats[k] = 0`). -/
def Stats.zero : Stats :=
  { packets_total := 0, packets_in := 0, packets_out := 0
    bytes_total := 0, bytes_in := 0, bytes_out := 0 }

/-- One buffered row (`PacketRow` dataclass, `server.py` lines 14-25).
The timestamp, summary and payload fields are irrelevant to the
buffer/counter claims and are omitted; `id`, addresses, protocol tag and
length are kept. -/
structure PacketRow where
  id : Nat
  src : String
  dst : String
  protocol : String
  length : Nat
deriving Repr, DecidableEq

/-- A frame handed to the sniffer callback `_on_packet`.  `hasIP` models
`IP in pkt`; `proto` is `pkt[IP].proto`; `len` is `len(pkt)`. -/
structure Frame where
  hasIP : Bool
  src : String
  dst : String
  proto : Nat
  len : Nat
deriving Repr, DecidableEq

/-- Protocol tag table `{6: "TCP", 17: "UDP", 1: "ICMP"}.get(proto, "OTHER")`
(`server.py` line 85). -/
def protoName (n : Nat) : String :=
  if n = 6 then "TCP" else if n = 17 then "UDP" else if n = 1 then "ICMP" else "OTHER"

/-- The mutable state of `CaptureState` (`server.py` lines 28-45).
`packets` lists the ring-buffer rows oldest first (a `deque(maxlen=max_packets)`).
`snifferRef` models `_sniffer is not None`; `liveSniffers` counts the capture
subscriptions (scapy `AsyncSniffer`s) spawned and not yet stopped. -/
structure CaptureState where
  running : Bool
  filter_ip : String
  iface : Option String
  next_id : Nat
  packets : List PacketRow
  stats : Stats
  max_packets : Nat
  snifferRef : Bool
  liveSniffers : Nat
deriving Repr, DecidableEq

/-- Freshly constructed `CaptureState(max_packets)` (`__init__`). -/
def CaptureState.init (cap : Nat) : CaptureState :=
  { running := false, filter_ip := "", iface := none, next_id := 1
    packets := [], stats := Stats.zero, max_packets := cap
    snifferRef := false, liveSniffers := 0 }

/-- Appending to a `deque(maxlen = cap)`: the new element goes to the right
and the deque silently keeps only the rightmost `cap` elements. -/
def dequeAppend (cap : Nat) (xs : List α) (x : α) : List α :=
  let ys := xs ++ [x]
  ys.drop (ys.length - cap)

/-- `CaptureState._packet_ok` (`server.py` lines 69-74): with an empty filter
every frame passes; otherwise the filter must equal src or dst. -/
def CaptureState.packet_ok (st : CaptureState) (src dst : String) : Bool :=
  if st.filter_ip == "" then true
  else st.filter_ip == src || st.filter_ip == dst

/-- Direction bookkeeping of `_on_packet` (`server.py` lines 121-130):
when a filter is set, a frame whose dst equals the filter bumps the `out`
counters, else one whose src equals the filter bumps the `in` counters. -/
def updateDirStats (f : String) (src dst : String) (len : Nat) (s : Stats) : Stats :=
  if f == "" then s
  else if dst == f then
    { s with packets_out := s.packets_out + 1, bytes_out := s.bytes_out + len }
  else if src == f then
    { s with packets_in := s.packets_in + 1, bytes_in := s.bytes_in + len }
  else s

/-- `CaptureState._on_packet` (`server.py` lines 76-131): ignore non-IP
frames, apply the filter, assign `next_id`, append to the ring buffer and
update the counters. -/
def CaptureState.on_packet (st : CaptureState) (fr : Frame) : CaptureState :=
  if !fr.hasIP then st
  else if !(st.packet_ok fr.src fr.dst) then st
  else
    let row : PacketRow :=
      { id := st.next_id, src := fr.src, dst := fr.dst
        protocol := protoName fr.proto, length := fr.len }
    let s1 :=
      { st.stats with
        packets_total := st.stats.packets_total + 1
        bytes_total := st.stats.bytes_total + row.length }
    { st with
      next_id := st.next_id + 1
      packets := dequeAppend st.max_packets st.packets row
      stats := updateDirStats st.filter_ip row.src row.dst row.length s1 }

/-- `CaptureState.set_filter` (`server.py` lines 65-67). -/
def CaptureState.set_filter (st : CaptureState) (ip : String) : CaptureState :=
  { st with filter_ip := pyStrip ip }

/-- `CaptureState.start` (`server.py` lines 132-154): if already running it
only updates the stored filter/iface; otherwise it stores them, zeroes every
counter and spawns one `AsyncSniffer`. -/
def CaptureState.start (st : CaptureState) (ip_filter : String) (ifc : Option String) :
    CaptureState :=
  let ipf := pyStrip ip_filter
  if st.running then
    { st with filter_ip := ipf, iface := ifc }
  else
    { st with
      filter_ip := ipf, iface := ifc
      stats := Stats.zero
      snifferRef := true
      liveSniffers := st.liveSniffers + 1
      running := true }

/-- `CaptureState.stop` (`server.py` lines 156-167): clear the sniffer
reference and the running flag, then stop the sniffer that was referenced. -/
def CaptureState.stop (st : CaptureState) : CaptureState :=
  { st with
    snifferRef := false
    running := false
    liveSniffers := if st.snifferRef then st.liveSniffers - 1 else st.liveSniffers }

/-- `CaptureState.get_packets(since_id, limit)` (`server.py` lines 58-63):
keep the rows with `id > since_id`; a positive limit keeps only the last
`limit` of them (Python `rows[-limit:]`). -/
def CaptureState.get_packets (packets : List PacketRow) (since_id : Int) (limit : Int) :
    List PacketRow :=
  let rows := packets.filter (fun p => decide ((p.id : Int) > since_id))
  if limit > 0 then rows.drop (rows.length - limit.toNat) else rows

/-- One externally visible event of a `CaptureState`'s life: the HTTP
handlers call `start`, `set_filter`, and `stop`, and the sniffer delivers
frames to `_on_packet`. -/
inductive Op where
  | start (ip_filter : String) (ifc : Option String)
  | set_filter (ip : String)
  | packet (fr : Frame)
  | stop
deriving Repr, DecidableEq

/-- Apply one event to the state. -/
def applyOp (st : CaptureState) : Op → CaptureState
  | .start f i => st.start f i
  | .set_filter ip => st.set_filter ip
  | .packet fr => st.on_packet fr
  | .stop => st.stop

/-- Run a sequence of events. -/
def runOps (st : CaptureState) (ops : List Op) : CaptureState :=
  ops.foldl applyOp st

/-- Whether `_on_packet` retains (buffers and counts) the frame. -/
def retains (st : CaptureState) (fr : Frame) : Bool :=
  fr.hasIP && st.packet_ok fr.src fr.dst

/-- The row ids assigned by `_on_packet` along a run, in insertion order
(eviction never removes an id from this history). -/
def assignedIds (st : CaptureState) : List Op → List Nat
  | [] => []
  | op :: rest =>
    (match op with
     | .packet fr => if retains st fr then [st.next_id] else []
     | _ => []) ++ assignedIds (applyOp st op) rest

/-- In every reachable state, `_sniffer` is set exactly when `_running`,
and the number of live `AsyncSniffer` subscriptions is 1 when running and
0 otherwise. -/
def snifferInv (st : CaptureState) : Prop :=
  st.snifferRef = st.running ∧ st.liveSniffers = (if st.running then 1 else 0)

/-- In every reachable state the buffer holds at most `cap` rows, fewer rows
than ids ever assigned, and its ids are the consecutive block ending at
`next_id - 1`. -/
def bufferInv (cap : Nat) (st : CaptureState) : Prop :=
  st.max_packets = cap ∧
  st.packets.length ≤ cap ∧
  st.packets.length < st.next_id ∧
  st.packets.map PacketRow.id = List.range' (st.next_id - st.packets.length) st.packets.length

/-- The C1 scenario: fresh start with filter `10.0.0.5`, then a TCP frame
`10.0.0.5 → 8.8.8.8` of length 100 and a UDP frame `8.8.8.8 → 10.0.0.5`
of length 200. -/
def c1Trace : List Op :=
  [Op.start "10.0.0.5" none,
   Op.packet { hasIP := true, src := "10.0.0.5", dst := "8.8.8.8", proto := 6, len := 100 },
   Op.packet { hasIP := true, src := "8.8.8.8", dst := "10.0.0.5", proto := 17, len := 200 }]

/-- A trace containing an explicit capture restart (`stop` then `start`)
with one retained frame before and one after. -/
def c4Trace : List Op :=
  [Op.start "" none,
   Op.packet { hasIP := true, src := "1.1.1.1", dst := "2.2.2.2", proto := 6, len := 50 },
   Op.stop,
   Op.start "" none,
   Op.packet { hasIP := true, src := "3.3.3.3", dst := "4.4.4.4", proto := 17, len := 60 }]

/-- Trace for the C8 witness: a fresh start then three retained frames. -/
def c8WitnessTrace : List Op :=
  [Op.start "" none,
   Op.packet { hasIP := true, src := "1.1.1.1", dst := "2.2.2.2", proto := 6, len := 10 },
   Op.packet { hasIP := true, src := "1.1.1.1", dst := "2.2.2.2", proto := 6, len := 20 },
   Op.packet { hasIP := true, src := "1.1.1.1", dst := "2.2.2.2", proto := 6, len := 30 }]

/-- Tracks, along a run, whether every frame counted into the stats since
the last fresh `start` (which zeroes the counters) was retained while a
non-empty filter was set.  Used to characterise when
`packets_in + packets_out = packets_total`. -/
def allCountedFiltered (st : CaptureState) (acc : Bool) : List Op → Bool
  | [] => acc
  | op :: rest =>
    allCountedFiltered (applyOp st op)
      (match op with
       | .packet fr => acc && (!(retains st fr) || st.filter_ip != "")
       | .start _ _ => if st.running then acc else true
       | _ => acc) rest

/-- Buffer used by the C6 witness. -/
def c6Buf : List PacketRow :=
  [{ id := 1, src := "10.0.0.5", dst := "8.8.8.8", protocol := "TCP", length := 10 },
   { id := 2, src := "8.8.8.8", dst := "10.0.0.5", protocol := "UDP", length := 20 },
   { id := 3, src := "10.0.0.5", dst := "8.8.8.8", protocol := "TCP", length := 30 }]

/-! ## app.py : gateway MAC-change indicator (C2)

State and step of the gateway portion of `_compute_mitm_indicators`
(`app.py` lines 455-509).  An observation bundles what the environment
resolves at query time: `gw_ip` is the result of
`_get_default_gateway_ip()` and `macFor` the (already normalised) result
of `_neighbor_mac_for_ip(gw_ip)` — the empty string when the neighbor
cache has no entry. -/

/-- The module globals `_gateway_ip_last` / `_gateway_mac_last`
(`app.py` lines 45-46), both initially `None`. -/
structure GatewayState where
  gateway_ip_last : Option String
  gateway_mac_last : Option String
deriving Repr, DecidableEq

def initGatewayState : GatewayState :=
  { gateway_ip_last := none, gateway_mac_last := none }

/-- What the environment resolves during one `compute_indicators` query. -/
structure GatewayObs where
  gw_ip : Option String
  macFor : String
deriving Repr, DecidableEq

/-- Python truthiness of an `Optional[str]`: `None` and `""` are falsy. -/
def pyTruthyOpt : Option String → Bool
  | none => false
  | some s => s != ""

/-- The observation resolves a truthy gateway IP and a non-empty MAC. -/
def GatewayObs.resolved (obs : GatewayObs) : Bool :=
  pyTruthyOpt obs.gw_ip && obs.macFor != ""

/-- The gateway block of `_compute_mitm_indicators` (`app.py` lines
474-496): returns whether `gateway_mac_changed` is emitted on this query,
and the updated `(gateway_ip_last, gateway_mac_last)` state.  The stored
pair is replaced only after the comparison, and only when both the gateway
IP and its MAC resolved. -/
def computeGatewayStep (st : GatewayState) (obs : GatewayObs) :
    Bool × GatewayState :=
  match obs.gw_ip with
  | none => (false, st)
  | some ip =>
    if ip == "" then (false, st)
    else
      let gw_mac := obs.macFor
      if gw_mac == "" then (false, st)
      else
        let emit := (st.gateway_ip_last == some ip) &&
          pyTruthyOpt st.gateway_mac_last && (st.gateway_mac_last != some gw_mac)
        (emit, { gateway_ip_last := some ip, gateway_mac_last := some gw_mac })

/-! ## app.py : passive ARP monitor and duplicate-IP indicator (C5) -/

/-- Python string comparison (code-point lexicographic), as used by
`sorted(...)`. -/
def charListLe : List Char → List Char → Bool
  | [], _ => true
  | _ :: _, [] => false
  | a :: as, b :: bs =>
    if a.toNat < b.toNat then true
    else if b.toNat < a.toNat then false
    else charListLe as bs

def strLe (s t : String) : Bool := charListLe s.data t.data

def insertSortedStr (s : String) : List String → List String
  | [] => [s]
  | t :: rest => if strLe s t then s :: t :: rest else t :: insertSortedStr s rest

/-- Python `sorted(...)` on strings. -/
def sortStrings (l : List String) : List String := l.foldr insertSortedStr []

/-- `_normalize_mac` (`app.py` lines 383-385). -/
def normalizeMac (mac : String) : String := pyLower (pyStrip mac)

/-- One entry of the `_arp_events` deque (newest first, `maxlen=300`). -/
structure ArpEvent where
  kind : String
  ip : String
  new_mac : String
  known_macs : List String
  op : Nat
deriving Repr, DecidableEq

/-- The module state read by `_arp_callback` / `_compute_mitm_indicators`:
`_ip_to_macs` as an insertion-ordered map from IP to the insertion-ordered
list of distinct MACs seen for it, and the recent-events log. -/
structure ArpState where
  ip_to_macs : List (String × List String)
  arp_events : List ArpEvent
deriving Repr, DecidableEq

def initArpState : ArpState := { ip_to_macs := [], arp_events := [] }

def lookupMacs : List (String × List String) → String → Option (List String)
  | [], _ => none
  | (k, v) :: rest, ip => if k == ip then some v else lookupMacs rest ip

/-- Store `v` under `ip`, inserting at the end if absent (Python dict
`setdefault` followed by in-place mutation of the set). -/
def setMacs : List (String × List String) → String → List String → List (String × List String)
  | [], ip, v => [(ip, v)]
  | (k, w) :: rest, ip, v =>
    if k == ip then (k, v) :: rest else (k, w) :: setMacs rest ip v

/-- `_record_arp_event` (`app.py` lines 395-402): `appendleft` on a deque
with `maxlen=300`. -/
def recordArpEvent (ev : ArpEvent) (events : List ArpEvent) : List ArpEvent :=
  (ev :: events).take 300

/-- `_arp_callback` (`app.py` lines 405-425) for an ARP frame with source
IP `psrc`, source MAC `hwsrc` and opcode `op`: skip blank fields; if the IP
already has at least one different MAC recorded, log an
`ip_conflict_suspected` event (before the new MAC joins the set); then add
the MAC to the IP's set. -/
def arpCallback (st : ArpState) (psrc hwsrc : String) (op : Nat) : ArpState :=
  let ip := pyStrip psrc
  let mac := normalizeMac hwsrc
  if ip == "" || mac == "" then st
  else
    let seen := (lookupMacs st.ip_to_macs ip).getD []
    let events :=
      if !(seen.contains mac) && decide (0 < seen.length) then
        recordArpEvent
          { kind := "ip_conflict_suspected", ip := ip, new_mac := mac
            known_macs := sortStrings seen, op := op } st.arp_events
      else st.arp_events
    let seen2 := if seen.contains mac then seen else seen ++ [mac]
    { ip_to_macs := setMacs st.ip_to_macs ip seen2, arp_events := events }

/-- The `duplicate_ip_mapping` conflict list of `_compute_mitm_indicators`
(`app.py` lines 466-470): the IPs whose accumulated MAC set has more than
one member, each with its sorted MAC list. -/
def duplicateConflicts (m : List (String × List String)) : List (String × List String) :=
  (m.filter (fun p => decide (1 < p.2.length))).map (fun p => (p.1, sortStrings p.2))

/-- Whether the `duplicate_ip_mapping` indicator is appended
(`app.py` lines 471-472): exactly when the conflict list is non-empty. -/
def duplicateIndicatorEmitted (m : List (String × List String)) : Bool :=
  !(m.filter (fun p => decide (1 < p.2.length))).isEmpty

/-! ## app.py : discovery start guard (C3) -/

/-- Dotted-quad IPv4 address as a natural number. -/
def v4 (a b c d : Nat) : Nat := ((a * 256 + b) * 256 + c) * 256 + d

/-- An already-parsed `ipaddress.IPv4Network(cidr, strict=False)`. -/
structure IPv4Net where
  addr : Nat
  prefixLen : Nat
deriving Repr, DecidableEq

def hostBits (p : Nat) : Nat := 32 - p

def IPv4Net.network_address (n : IPv4Net) : Nat :=
  n.addr - n.addr % 2 ^ hostBits n.prefixLen

def IPv4Net.broadcast_address (n : IPv4Net) : Nat :=
  n.network_address + (2 ^ hostBits n.prefixLen - 1)

/-- Whether address `x` lies in the network `netAddr/p`. -/
def inNet (netAddr p x : Nat) : Bool :=
  x / 2 ^ hostBits p == netAddr / 2 ^ hostBits p

/-- The `_private_networks` table of CPython's `ipaddress` module for IPv4,
backing `IPv4Address.is_private`. -/
def pyPrivateNetworksV4 : List (Nat × Nat) :=
  [(v4 0 0 0 0, 8), (v4 10 0 0 0, 8), (v4 127 0 0 0, 8), (v4 169 254 0 0, 16),
   (v4 172 16 0 0, 12), (v4 192 0 0 0, 29), (v4 192 0 0 170, 31), (v4 192 0 2 0, 24),
   (v4 192 168 0 0, 16), (v4 198 18 0 0, 15), (v4 198 51 100 0, 24), (v4 203 0 113 0, 24),
   (v4 240 0 0 0, 4), (v4 255 255 255 255, 32)]

/-- CPython `IPv4Address.is_private`: membership in any listed network. -/
def pyAddrIsPrivate (x : Nat) : Bool :=
  pyPrivateNetworksV4.any (fun q => inNet q.1 q.2 x)

/-- CPython `IPv4Network.is_private`: both the network address and the
broadcast address are private. -/
def IPv4Net.is_private (n : IPv4Net) : Bool :=
  pyAddrIsPrivate n.network_address && pyAddrIsPrivate n.broadcast_address

/-- The spec's notion (not the code's): the three RFC1918 private blocks
`10.0.0.0/8`, `172.16.0.0/12`, `192.168.0.0/16`. -/
def rfc1918Blocks : List (Nat × Nat) :=
  [(v4 10 0 0 0, 8), (v4 172 16 0 0, 12), (v4 192 168 0 0, 16)]

/-- The spec's notion: a network is an RFC1918 private range iff it lies
entirely inside one of the three RFC1918 blocks. -/
def isRFC1918Network (n : IPv4Net) : Bool :=
  rfc1918Blocks.any (fun q =>
    decide (q.2 ≤ n.prefixLen) && inNet q.1 q.2 n.network_address)

/-- The discovery job state touched by `api_discover_start` /
`_run_discovery`: the `running` flag and a count of ICMP echoes issued. -/
structure DiscoverState where
  job_running : Bool
  pingsIssued : Nat
deriving Repr, DecidableEq

inductive DiscoverResponse where
  | alreadyRunning
  | rejectedNotPrivate
  | started (net : IPv4Net) (max_hosts : Nat)
deriving Repr, DecidableEq

/-- `api_discover_start` (`app.py` lines 821-853) for a request whose CIDR
parsed to `net`: a running job short-circuits; a network failing
`net.is_private` is rejected with a 400 before the sweep is spawned (no
ping, no job-state change); otherwise the background sweep is spawned,
marking the job running. -/
def api_discover_start (st : DiscoverState) (net : IPv4Net) (max_hosts : Nat) :
    DiscoverResponse × DiscoverState :=
  if st.job_running then (.alreadyRunning, st)
  else if !net.is_private then (.rejectedNotPrivate, st)
  else (.started net max_hosts, { st with job_running := true })

/-! ## app.py : router-lease import (C10) -/

/-- One parsed lease row (`_parse_router_leases_text` output). -/
structure Lease where
  ip : String
  mac : String
  hostname : String
  source : String
deriving Repr, DecidableEq

def isHexChar (c : Char) : Bool :=
  c.isDigit || (decide (97 ≤ c.toNat) && decide (c.toNat ≤ 102)) ||
    (decide (65 ≤ c.toNat) && decide (c.toNat ≤ 70))

/-- Python `s.isdigit()` (ASCII digits). -/
def pyIsDigitStr (s : String) : Bool :=
  s != "" && s.data.all Char.isDigit

/-- `re.match(r"^[0-9a-fA-F:]{17}$", s)`. -/
def macColonRe (s : String) : Bool :=
  s.length == 17 && s.data.all (fun c => isHexChar c || c == ':')

/-- Full match of `^\d{1,3}(?:\.\d{1,3}){3}$`. -/
def ipFullRe (s : String) : Bool :=
  let ps := pySplitChar s '.'
  ps.length == 4 &&
    ps.all (fun p => p != "" && decide (p.length ≤ 3) && p.data.all Char.isDigit)

/-- All ways for `\d{1,3}` to consume leading digits, longest first (the
backtracking order of the `re` engine). -/
def takeDigits13 (cs : List Char) : List (List Char × List Char) :=
  let d3 :=
    match cs with
    | a :: b :: c :: rest =>
      if a.isDigit && b.isDigit && c.isDigit then [([a, b, c], rest)] else []
    | _ => []
  let d2 :=
    match cs with
    | a :: b :: rest => if a.isDigit && b.isDigit then [([a, b], rest)] else []
    | _ => []
  let d1 :=
    match cs with
    | a :: rest => if a.isDigit then [([a], rest)] else []
    | _ => []
  d3 ++ d2 ++ d1

/-- Matcher for `(?:\.\d{1,3}){n}`, returning the consumed characters. -/
def matchDotGroups : Nat → List Char → Option (List Char)
  | 0, _ => some []
  | n + 1, cs =>
    match cs with
    | '.' :: rest =>
      (takeDigits13 rest).findSome? (fun q =>
        (matchDotGroups n q.2).map (fun tail => '.' :: q.1 ++ tail))
    | _ => none

/-- Greedy match of `\d{1,3}(?:\.\d{1,3}){3}` anchored at the start. -/
def matchIpAt (cs : List Char) : Option String :=
  (takeDigits13 cs).findSome? (fun q =>
    (matchDotGroups 3 q.2).map (fun tail => String.mk (q.1 ++ tail)))

def searchIpAux : List Char → Option String
  | [] => none
  | c :: rest =>
    match matchIpAt (c :: rest) with
    | some m => some m
    | none => searchIpAux rest

/-- Python `re.search(r"(\d{1,3}(?:\.\d{1,3}){3})", s)`: leftmost match. -/
def searchIp (s : String) : Option String := searchIpAux s.data

/-- Match of `[0-9a-fA-F]{2}(?::[0-9a-fA-F]{2}){5}` anchored at the start:
17 characters with `:` at positions 2, 5, 8, 11, 14 and hex elsewhere. -/
def matchMacAt (cs : List Char) : Option String :=
  let cs17 := cs.take 17
  if cs17.length == 17 &&
      (List.range 17).all (fun i =>
        if i % 3 == 2 then cs17.getD i ' ' == ':' else isHexChar (cs17.getD i ' ')) then
    some (String.mk cs17)
  else none

def searchMacAux : List Char → Option String
  | [] => none
  | c :: rest =>
    match matchMacAt (c :: rest) with
    | some m => some m
    | none => searchMacAux rest

/-- Python `re.search(r"([0-9a-fA-F]{2}(?::[0-9a-fA-F]{2}){5})", s)`. -/
def searchMac (s : String) : Option String := searchMacAux s.data

/-- `col_idx(*names)`: the index in `header` of the first of `names`
present in it. -/
def colIdx (header : List String) (names : List String) : Option Nat :=
  names.findSome? (fun n => header.findIdx? (fun h => h == n))

/-- `cols[i] if i >= 0 and i < len(cols) else ""`. -/
def getCol (cols : List String) : Option Nat → String
  | some i => cols.getD i ""
  | none => ""

/-- `_parse_router_leases_text` (`app.py` lines 511-587): OpenWrt
`dhcp.leases` heuristic first, CSV/TSV with header detection and
regex fallback otherwise. -/
def parseRouterLeasesText (textIn : String) : List Lease :=
  let text := pyStrip textIn
  if text == "" then []
  else
    let lines := ((pySplitLines text).map pyStrip).filter (fun l => l != "")
    let openwrtHits :=
      ((lines.take 25).filter (fun ln =>
        let parts := pySplitWs ln
        decide (4 ≤ parts.length) && pyIsDigitStr (parts.getD 0 "") &&
          macColonRe (parts.getD 1 ""))).length
    if 2 ≤ openwrtHits then
      lines.filterMap (fun ln =>
        let parts := pySplitWs ln
        if parts.length < 4 then none
        else
          let mac := parts.getD 1 ""
          let ip := parts.getD 2 ""
          let hostname := parts.getD 3 ""
          if !(ipFullRe ip) then none
          else
            some { ip := ip, mac := normalizeMac mac
                   hostname := if hostname == "*" then "" else hostname
                   source := "router_openwrt_dhcp_leases" })
    else
      let line0 := lines.getD 0 ""
      let delim : Char :=
        if pyContainsChar line0 ',' then ','
        else if pyContainsChar line0 '\t' then '\t' else ','
      let header := (pySplitChar line0 delim).map (fun h => pyLower (pyStrip h))
      let hasHeader := header.any (fun h =>
        h == "ip" || h == "address" || h == "ipv4" || h == "mac" ||
          h == "hostname" || h == "name")
      let ipI := colIdx header ["ip", "address", "ipv4"]
      let macI := colIdx header ["mac", "mac address", "mac_address"]
      let hostI := colIdx header ["hostname", "name", "device", "client"]
      let rows := if hasHeader then lines.drop 1 else lines
      rows.filterMap (fun ln =>
        let cols := (pySplitChar ln delim).map pyStrip
        let ip0 := getCol cols ipI
        let mac0 := getCol cols macI
        let hostname := getCol cols hostI
        let ip := if ip0 == "" then (searchIp ln).getD "" else ip0
        let mac := if mac0 == "" then (searchMac ln).getD "" else mac0
        if ip == "" && mac == "" then none
        else
          some { ip := ip, mac := normalizeMac mac, hostname := hostname
                 source := "router_csv" })

/-- The request body of `POST /api/router/leases/import`: an uploaded file
whose read raises, an uploaded file with its decoded text, or a JSON body
with a `text` field. -/
inductive ImportBody where
  | fileUnreadable
  | fileText (text : String)
  | jsonText (text : String)
deriving Repr, DecidableEq

structure ImportResponse where
  ok : Bool
  status : Nat
  count : Nat
deriving Repr, DecidableEq

/-- `api_router_leases_import` (`app.py` lines 756-781) acting on the
module state `_router_leases`: an unreadable upload or an input parsing to
zero rows yields a 400 error and leaves the stored leases untouched; a
successful parse replaces them wholesale. -/
def api_router_leases_import (router_leases : List Lease) (body : ImportBody) :
    ImportResponse × List Lease :=
  match body with
  | .fileUnreadable => ({ ok := false, status := 400, count := 0 }, router_leases)
  | .fileText t =>
    let leases := parseRouterLeasesText t
    if leases.isEmpty then ({ ok := false, status := 400, count := 0 }, router_leases)
    else ({ ok := true, status := 200, count := leases.length }, leases)
  | .jsonText t =>
    let leases := parseRouterLeasesText t
    if leases.isEmpty then ({ ok := false, status := 400, count := 0 }, router_leases)
    else ({ ok := true, status := 200, count := leases.length }, leases)

/-- `GET /api/router/leases` (`app.py` lines 784-786). -/
def api_router_leases (router_leases : List Lease) : List Lease := router_leases

/-! ## Basic lemmas about the capture state machine -/

theorem next_id_applyOp_le (st : CaptureState) (op : Op) :
    st.next_id ≤ (applyOp st op).next_id := by
  cases op with
  | start f i =>
    simp only [applyOp, CaptureState.start]
    split <;> simp
  | set_filter ip => simp [applyOp, CaptureState.set_filter]
  | packet fr =>
    simp only [applyOp, CaptureState.on_packet]
    split
    · exact Nat.le_refl _
    · split
      · exact Nat.le_refl _
      · simp
  | stop => simp [applyOp, CaptureState.stop]

theorem next_id_start (st : CaptureState) (f : String) (i : Option String) :
    (applyOp st (Op.start f i)).next_id = st.next_id := by
  simp only [applyOp, CaptureState.start]
  split <;> rfl

theorem next_id_stop (st : CaptureState) :
    (applyOp st Op.stop).next_id = st.next_id := rfl

theorem next_id_packet_retained (st : CaptureState) (fr : Frame)
    (h : retains st fr = true) :
    (applyOp st (Op.packet fr)).next_id = st.next_id + 1 := by
  simp only [retains, Bool.and_eq_true] at h
  simp [applyOp, CaptureState.on_packet, h.1, h.2]

theorem on_packet_not_retained (st : CaptureState) (fr : Frame)
    (h : retains st fr = false) :
    st.on_packet fr = st := by
  simp only [retains, Bool.and_eq_false_iff] at h
  rcases h with h | h
  · simp [CaptureState.on_packet, h]
  · simp [CaptureState.on_packet, h]

theorem assignedIds_lower_bound (ops : List Op) :
    ∀ (st : CaptureState), ∀ i ∈ assignedIds st ops, st.next_id ≤ i := by
  induction ops with
  | nil => intro st i hi; simp [assignedIds] at hi
  | cons op rest ih =>
    intro st i hi
    simp only [assignedIds, List.mem_append] at hi
    rcases hi with hi | hi
    · cases op with
      | packet fr =>
        by_cases h : retains st fr = true
        · simp [h] at hi; omega
        · simp [eq_false_of_ne_true h] at hi
      | start f ifc => simp at hi
      | set_filter ip => simp at hi
      | stop => simp at hi
    · exact Nat.le_trans (next_id_applyOp_le st op) (ih (applyOp st op) i hi)

theorem assignedIds_chain (ops : List Op) :
    ∀ st : CaptureState, List.Chain' (· < ·) (assignedIds st ops) := by
  induction ops with
  | nil => intro st; simp [assignedIds]
  | cons op rest ih =>
    intro st
    cases op with
    | packet fr =>
      by_cases h : retains st fr = true
      · simp only [assignedIds, h, if_pos, List.singleton_append]
        refine List.chain'_cons'.2 ⟨?_, ih _⟩
        intro y hy
        have hmem : y ∈ assignedIds (applyOp st (Op.packet fr)) rest :=
          List.mem_of_mem_head? hy
        have := assignedIds_lower_bound rest _ y hmem
        rw [next_id_packet_retained st fr h] at this
        omega
      · simpa [assignedIds, eq_false_of_ne_true h] using ih (applyOp st (Op.packet fr))
    | start f ifc => simpa [assignedIds] using ih (applyOp st (Op.start f ifc))
    | set_filter ip => simpa [assignedIds] using ih (applyOp st (Op.set_filter ip))
    | stop => simpa [assignedIds] using ih (applyOp st Op.stop)

theorem on_packet_retained (st : CaptureState) (fr : Frame)
    (h : retains st fr = true) :
    st.on_packet fr =
      { st with
        next_id := st.next_id + 1
        packets := dequeAppend st.max_packets st.packets
          { id := st.next_id, src := fr.src, dst := fr.dst
            protocol := protoName fr.proto, length := fr.len }
        stats := updateDirStats st.filter_ip fr.src fr.dst fr.len
          { st.stats with
            packets_total := st.stats.packets_total + 1
            bytes_total := st.stats.bytes_total + fr.len } } := by
  simp only [retains, Bool.and_eq_true] at h
  simp [CaptureState.on_packet, h.1, h.2]

theorem on_packet_preserves_control (st : CaptureState) (fr : Frame) :
    (st.on_packet fr).running = st.running ∧
    (st.on_packet fr).filter_ip = st.filter_ip ∧
    (st.on_packet fr).max_packets = st.max_packets ∧
    (st.on_packet fr).snifferRef = st.snifferRef ∧
    (st.on_packet fr).liveSniffers = st.liveSniffers := by
  by_cases h : retains st fr = true
  · rw [on_packet_retained st fr h]
    exact ⟨rfl, rfl, rfl, rfl, rfl⟩
  · rw [on_packet_not_retained st fr (by simpa using h)]
    exact ⟨rfl, rfl, rfl, rfl, rfl⟩

/-! ## Sniffer-count invariant (for C7) -/

theorem snifferInv_init (cap : Nat) : snifferInv (CaptureState.init cap) := by
  constructor <;> rfl

theorem snifferInv_applyOp (st : CaptureState) (op : Op) (h : snifferInv st) :
    snifferInv (applyOp st op) := by
  obtain ⟨h1, h2⟩ := h
  cases op with
  | start f i =>
    simp only [applyOp, CaptureState.start]
    by_cases hr : st.running = true
    · simp [snifferInv, hr, h1, h2]
    · have hr' : st.running = false := by revert hr; cases st.running <;> simp
      simp [snifferInv, hr', h1] at h2 ⊢
      simp [h2]
  | set_filter ip => exact ⟨h1, h2⟩
  | stop =>
    simp only [applyOp, CaptureState.stop, snifferInv, h1, h2]
    by_cases hr : st.running <;> simp [hr]
  | packet fr =>
    obtain ⟨p1, p2, p3, p4, p5⟩ := on_packet_preserves_control st fr
    exact ⟨by rw [applyOp, p4, p1, h1], by rw [applyOp, p5, p1, h2]⟩

theorem snifferInv_runOps (ops : List Op) :
    ∀ st : CaptureState, snifferInv st → snifferInv (runOps st ops) := by
  induction ops with
  | nil => intro st h; exact h
  | cons op rest ih => intro st h; exact ih _ (snifferInv_applyOp st op h)

/-! ## Ring-buffer invariant (for C8) -/

theorem drop_range'_eq (k : Nat) :
    ∀ s n : Nat, (List.range' s n).drop k = List.range' (s + k) (n - k) := by
  induction k with
  | zero => intro s n; simp
  | succ k ih =>
    intro s n
    cases n with
    | zero => simp
    | succ m =>
      rw [List.range'_succ, List.drop_succ_cons, ih (s + 1) m]
      congr 1 <;> omega

theorem bufferInv_init (cap : Nat) : bufferInv cap (CaptureState.init cap) := by
  refine ⟨rfl, by simp [CaptureState.init], by simp [CaptureState.init], ?_⟩
  simp [CaptureState.init]

theorem bufferInv_applyOp (cap : Nat) (st : CaptureState) (op : Op)
    (h : bufferInv cap st) : bufferInv cap (applyOp st op) := by
  obtain ⟨hcap, hle, hlt, hids⟩ := h
  cases op with
  | start f i =>
    simp only [applyOp, CaptureState.start]
    split <;> exact ⟨hcap, hle, hlt, hids⟩
  | set_filter ip => exact ⟨hcap, hle, hlt, hids⟩
  | stop => exact ⟨hcap, hle, hlt, hids⟩
  | packet fr =>
    by_cases hr : retains st fr = true
    · have hstep : applyOp st (Op.packet fr) = st.on_packet fr := rfl
      set row : PacketRow :=
        { id := st.next_id, src := fr.src, dst := fr.dst
          protocol := protoName fr.proto, length := fr.len } with hrow
      have hni : (st.on_packet fr).next_id = st.next_id + 1 := by
        rw [on_packet_retained st fr hr]
      have hpk : (st.on_packet fr).packets
          = (st.packets ++ [row]).drop ((st.packets ++ [row]).length - cap) := by
        rw [on_packet_retained st fr hr, hrow]
        simp [dequeAppend, hcap]
      have hmp : (st.on_packet fr).max_packets = st.max_packets := by
        rw [on_packet_retained st fr hr]
      have hlen2 : (st.packets ++ [row]).length = st.packets.length + 1 := by simp
      have h1n : st.next_id - st.packets.length + 1 * st.packets.length = st.next_id := by
        omega
      have hmap : (st.packets ++ [row]).map PacketRow.id
          = List.range' (st.next_id - st.packets.length) (st.packets.length + 1) := by
        rw [List.map_append, hids, List.range'_concat, h1n]
        simp [hrow]
      rw [hstep]
      refine ⟨by rw [hmp, hcap], ?_, ?_, ?_⟩
      · rw [hpk]
        simp only [List.length_drop, hlen2]
        omega
      · rw [hpk, hni]
        simp only [List.length_drop, hlen2]
        omega
      · rw [hpk, hni, List.map_drop, hmap, drop_range'_eq]
        simp only [List.length_drop, hlen2]
        congr 1
        all_goals omega
    · have hid : applyOp st (Op.packet fr) = st :=
        on_packet_not_retained st fr (by simpa using hr)
      rw [hid]
      exact ⟨hcap, hle, hlt, hids⟩

theorem bufferInv_runOps (cap : Nat) (ops : List Op) :
    ∀ st : CaptureState, bufferInv cap st → bufferInv cap (runOps st ops) := by
  induction ops with
  | nil => intro st h; exact h
  | cons op rest ih => intro st h; exact ih _ (bufferInv_applyOp cap st op h)

/-! ## Claim C1 : direction accounting in the two-frame scenario -/

/-- C1 counterexample: in the claimed scenario the code does NOT produce
`packets_out=1, bytes_out=100, packets_in=1, bytes_in=200` — the frame whose
src equals the filter IP is counted as `in` (100 bytes) and the frame whose
dst equals the filter IP is counted as `out` (200 bytes), so the claimed
stats record is refuted. -/
theorem c1_direction_counterexample :
    ¬ ((runOps (CaptureState.init 2000) c1Trace).stats =
      { packets_total := 2, packets_in := 1, packets_out := 1
        bytes_total := 300, bytes_in := 200, bytes_out := 100 }) := by decide

/-- C1 (amended): after a fresh start with filter `10.0.0.5` and the two
frames of the scenario, the stats are exactly `packets_total=2,
bytes_total=300, packets_out=1, bytes_out=200, packets_in=1, bytes_in=100`:
a frame whose dst equals the filter IP counts as `out` and a frame whose src
equals the filter IP counts as `in`. -/
theorem c1_direction_amended :
    (runOps (CaptureState.init 2000) c1Trace).stats =
      { packets_total := 2, packets_in := 1, packets_out := 1
        bytes_total := 300, bytes_in := 100, bytes_out := 200 } := by decide

/-! ## Claim C4 : row ids strictly increase across the buffer lifetime -/

/-- C4 counterexample: the id counter is NOT reset by an explicit capture
restart.  After `start`, one retained frame, `stop`, `start` (a restart),
`next_id` is still 2 — not 1 — and the frame retained after the restart gets
id 2, so the buffer holds ids `[1, 2]`. -/
theorem c4_restart_reset_counterexample :
    (runOps (CaptureState.init 2000) (c4Trace.take 4)).next_id = 2 ∧
    ¬ (runOps (CaptureState.init 2000) (c4Trace.take 4)).next_id = 1 ∧
    (runOps (CaptureState.init 2000) c4Trace).packets.map PacketRow.id = [1, 2] := by
  decide

/-- C4 (amended): the ids assigned to buffered rows are strictly increasing
across the buffer's entire lifetime, in insertion order, even as old rows
are evicted (eviction never touches the counter); and the id counter is
never reset at all — an explicit capture restart (`start` or `stop`) leaves
`next_id` unchanged, and no operation decreases it. -/
theorem c4_ids_strictly_increasing :
    ∀ (cap : Nat) (ops : List Op),
      List.Chain' (· < ·) (assignedIds (CaptureState.init cap) ops) ∧
      (∀ (st : CaptureState) (f : String) (i : Option String),
        (applyOp st (Op.start f i)).next_id = st.next_id ∧
        (applyOp st Op.stop).next_id = st.next_id) ∧
      (∀ (st : CaptureState) (op : Op), st.next_id ≤ (applyOp st op).next_id) := by
  intro cap ops
  exact ⟨assignedIds_chain ops _,
    fun st f i => ⟨next_id_start st f i, next_id_stop st⟩,
    fun st op => next_id_applyOp_le st op⟩

/-! ## Claim C7 : at most one sniffer; start resets counters or only updates -/

/-- C7: over every sequence of operations at most one capture subscription is
live; a `start` on a non-running state installs the stored filter/iface,
zeroes all six counters and spawns the (single) sniffer; a `start` on a
running state only updates the stored filter/iface in place — same counters,
same sniffer, no second subscription. -/
theorem c7_single_sniffer :
    ∀ (cap : Nat) (ops : List Op) (st : CaptureState) (f : String) (i : Option String),
      (runOps (CaptureState.init cap) ops).liveSniffers ≤ 1 ∧
      (st.running = false →
        applyOp st (Op.start f i) =
          { st with
            filter_ip := pyStrip f, iface := i, stats := Stats.zero,
            snifferRef := true, liveSniffers := st.liveSniffers + 1, running := true }) ∧
      (st.running = true →
        applyOp st (Op.start f i) = { st with filter_ip := pyStrip f, iface := i }) := by
  intro cap ops st f i
  refine ⟨?_, ?_, ?_⟩
  · have h := snifferInv_runOps ops (CaptureState.init cap) (snifferInv_init cap)
    rw [h.2]
    split <;> omega
  · intro h
    simp [applyOp, CaptureState.start, h]
  · intro h
    simp [applyOp, CaptureState.start, h]

/-- Witness for C7: concrete fresh start followed by a second start while
running, with both hypotheses discharged at `CaptureState.init 2000`. -/
theorem c7_single_sniffer_witness :
    (runOps (CaptureState.init 2000)
      [Op.start "10.0.0.5" none, Op.start "8.8.8.8" none]).liveSniffers ≤ 1 ∧
    (CaptureState.init 2000).running = false ∧
    applyOp (CaptureState.init 2000) (Op.start "10.0.0.5" none) =
      { CaptureState.init 2000 with
        filter_ip := pyStrip "10.0.0.5", iface := none, stats := Stats.zero,
        snifferRef := true, liveSniffers := (CaptureState.init 2000).liveSniffers + 1,
        running := true } ∧
    (applyOp (CaptureState.init 2000) (Op.start "10.0.0.5" none)).running = true ∧
    applyOp (applyOp (CaptureState.init 2000) (Op.start "10.0.0.5" none))
        (Op.start "8.8.8.8" none) =
      { applyOp (CaptureState.init 2000) (Op.start "10.0.0.5" none) with
        filter_ip := pyStrip "8.8.8.8", iface := none } :=
  ⟨(c7_single_sniffer 2000 [Op.start "10.0.0.5" none, Op.start "8.8.8.8" none]
      (CaptureState.init 2000) "" none).1,
   rfl,
   (c7_single_sniffer 2000 [] (CaptureState.init 2000) "10.0.0.5" none).2.1 rfl,
   rfl,
   (c7_single_sniffer 2000 [] (applyOp (CaptureState.init 2000) (Op.start "10.0.0.5" none))
      "8.8.8.8" none).2.2 rfl⟩

/-! ## Claim C8 : ring buffer capacity and oldest id -/

/-- C8: for every operation sequence on a `CaptureState` with positive
capacity, the ring buffer never holds more than `cap` rows, and whenever it
is full the oldest id present is exactly `next_id - cap`. -/
theorem c8_ring_buffer_capacity :
    ∀ (cap : Nat) (ops : List Op), 0 < cap →
      (runOps (CaptureState.init cap) ops).packets.length ≤ cap ∧
      ((runOps (CaptureState.init cap) ops).packets.length = cap →
        ((runOps (CaptureState.init cap) ops).packets.map PacketRow.id).head? =
          some ((runOps (CaptureState.init cap) ops).next_id - cap)) := by
  intro cap ops hcap
  obtain ⟨hm, hle, hlt, hids⟩ :=
    bufferInv_runOps cap ops (CaptureState.init cap) (bufferInv_init cap)
  refine ⟨hle, ?_⟩
  intro hfull
  rw [hids, List.head?_range', hfull]
  have hne : ¬ cap = 0 := by omega
  simp [hne]

/-- Witness for C8: capacity 2, a fresh start and three retained frames; the
buffer holds the 2 rows `[2, 3]` and the oldest id equals `next_id - 2`. -/
theorem c8_ring_buffer_capacity_witness :
    0 < 2 ∧
    ((runOps (CaptureState.init 2) c8WitnessTrace).packets.length ≤ 2 ∧
      ((runOps (CaptureState.init 2) c8WitnessTrace).packets.length = 2 →
        ((runOps (CaptureState.init 2) c8WitnessTrace).packets.map PacketRow.id).head? =
          some ((runOps (CaptureState.init 2) c8WitnessTrace).next_id - 2))) :=
  ⟨by decide, c8_ring_buffer_capacity 2 c8WitnessTrace (by decide)⟩

/-! ## Claim C6 : get_packets incremental polling contract -/

/-- C6: on a buffer whose rows carry strictly increasing ids (the insertion
order maintained by `_on_packet`), `get_packets(since_id, limit)` with a
positive limit returns only rows with `id > since_id`, returns a suffix
(the most recent rows) of the matching rows of length `min limit`
(number of matches), and the returned ids are strictly increasing. -/
theorem c6_get_packets_spec :
    ∀ (buf : List PacketRow) (since_id limit : Int),
      List.Pairwise (fun p q => p.id < q.id) buf →
      0 < limit →
      (∀ r ∈ CaptureState.get_packets buf since_id limit, since_id < (r.id : Int)) ∧
      CaptureState.get_packets buf since_id limit <:+
        buf.filter (fun p => decide ((p.id : Int) > since_id)) ∧
      (CaptureState.get_packets buf since_id limit).length =
        min limit.toNat (buf.filter (fun p => decide ((p.id : Int) > since_id))).length ∧
      List.Pairwise (· < ·) ((CaptureState.get_packets buf since_id limit).map PacketRow.id) := by
  intro buf since_id limit hpw hlim
  have hgp : CaptureState.get_packets buf since_id limit =
      (buf.filter (fun p => decide ((p.id : Int) > since_id))).drop
        ((buf.filter (fun p => decide ((p.id : Int) > since_id))).length - limit.toNat) := by
    simp [CaptureState.get_packets, hlim]
  refine ⟨?_, ?_, ?_, ?_⟩
  · intro r hr
    rw [hgp] at hr
    have hr2 := List.mem_of_mem_drop hr
    have := (List.mem_filter.1 hr2).2
    simpa using this
  · rw [hgp]
    exact List.drop_suffix _ _
  · rw [hgp, List.length_drop]
    omega
  · rw [hgp]
    have hsub : ((buf.filter (fun p => decide ((p.id : Int) > since_id))).drop
        ((buf.filter (fun p => decide ((p.id : Int) > since_id))).length - limit.toNat)).Sublist
        buf :=
      ((List.drop_suffix _ _).sublist).trans (List.filter_sublist buf)
    exact List.pairwise_map.2 (hpw.sublist hsub)

/-- Witness for C6: the three-row buffer `c6Buf`, `since_id = 1`,
`limit = 2`; both hypotheses hold by computation. -/
theorem c6_get_packets_witness :
    (List.Pairwise (fun p q => p.id < q.id) c6Buf ∧ (0 : Int) < 2) ∧
    ((∀ r ∈ CaptureState.get_packets c6Buf 1 2, (1 : Int) < (r.id : Int)) ∧
      CaptureState.get_packets c6Buf 1 2 <:+
        c6Buf.filter (fun p => decide ((p.id : Int) > 1)) ∧
      (CaptureState.get_packets c6Buf 1 2).length =
        min (Int.toNat 2) (c6Buf.filter (fun p => decide ((p.id : Int) > 1))).length ∧
      List.Pairwise (· < ·) ((CaptureState.get_packets c6Buf 1 2).map PacketRow.id)) :=
  ⟨⟨by decide, by decide⟩, c6_get_packets_spec c6Buf 1 2 (by decide) (by decide)⟩

/-! ## Claim C9 : retention rule and the in/out vs total inequality -/

theorem retains_iff (st : CaptureState) (fr : Frame) :
    retains st fr = true ↔
      fr.hasIP = true ∧
        (st.filter_ip = "" ∨ st.filter_ip = fr.src ∨ st.filter_ip = fr.dst) := by
  simp only [retains, CaptureState.packet_ok, Bool.and_eq_true]
  by_cases hf : st.filter_ip = ""
  · simp [hf]
  · have hb : (st.filter_ip == "") = false := by simp [hf]
    simp [hb, hf]

theorem packet_ok_cases (st : CaptureState) (src dst : String)
    (h : st.packet_ok src dst = true) (hf : st.filter_ip ≠ "") :
    st.filter_ip = src ∨ st.filter_ip = dst := by
  have hb : (st.filter_ip == "") = false := by simp [hf]
  simp only [CaptureState.packet_ok, hb, Bool.false_eq_true, if_false, Bool.or_eq_true,
    beq_iff_eq] at h
  exact h

theorem updateDirStats_total (f src dst : String) (len : Nat) (s : Stats) :
    (updateDirStats f src dst len s).packets_total = s.packets_total := by
  simp only [updateDirStats]
  split
  · rfl
  · split
    · rfl
    · split <;> rfl

theorem updateDirStats_sum (f src dst : String) (len : Nat) (s : Stats)
    (hf : f ≠ "") (hsd : f = src ∨ f = dst) :
    (updateDirStats f src dst len s).packets_in +
      (updateDirStats f src dst len s).packets_out =
      s.packets_in + s.packets_out + 1 := by
  have hb : (f == "") = false := by simp [hf]
  simp only [updateDirStats, hb, Bool.false_eq_true, if_false]
  by_cases hd : (dst == f) = true
  · simp [hd]
    omega
  · have hs : (src == f) = true := by
      rcases hsd with h | h
      · rw [h]; simp
      · rw [h] at hd; simp at hd
    simp [hd, hs]
    omega

theorem updateDirStats_empty (src dst : String) (len : Nat) (s : Stats) :
    updateDirStats "" src dst len s = s := by
  simp [updateDirStats]

theorem on_packet_stats_retained (st : CaptureState) (fr : Frame)
    (hr : retains st fr = true) :
    (st.on_packet fr).stats = updateDirStats st.filter_ip fr.src fr.dst fr.len
      { st.stats with
        packets_total := st.stats.packets_total + 1
        bytes_total := st.stats.bytes_total + fr.len } := by
  rw [on_packet_retained st fr hr]

/-- One step of the C9 bookkeeping: the inequality and the
equality-characterisation are preserved by every operation. -/
theorem c9_inv (ops : List Op) :
    ∀ (st : CaptureState) (acc : Bool),
      st.stats.packets_in + st.stats.packets_out ≤ st.stats.packets_total →
      ((st.stats.packets_in + st.stats.packets_out = st.stats.packets_total) ↔ acc = true) →
      (runOps st ops).stats.packets_in + (runOps st ops).stats.packets_out ≤
        (runOps st ops).stats.packets_total ∧
      ((runOps st ops).stats.packets_in + (runOps st ops).stats.packets_out =
        (runOps st ops).stats.packets_total ↔ allCountedFiltered st acc ops = true) := by
  induction ops with
  | nil => intro st acc h1 h2; exact ⟨h1, h2⟩
  | cons op rest ih =>
    intro st acc h1 h2
    have hrun : runOps st (op :: rest) = runOps (applyOp st op) rest := rfl
    rw [hrun]
    cases op with
    | start f i =>
      by_cases hr : st.running = true
      · have hst : applyOp st (Op.start f i) = { st with filter_ip := pyStrip f, iface := i } := by
          simp [applyOp, CaptureState.start, hr]
        have hacf : allCountedFiltered st acc (Op.start f i :: rest) =
            allCountedFiltered (applyOp st (Op.start f i)) acc rest := by
          simp [allCountedFiltered, hr]
        rw [hacf]
        exact ih _ acc (by rw [hst]; exact h1) (by rw [hst]; exact h2)
      · have hr' : st.running = false := by revert hr; cases st.running <;> simp
        have hst : applyOp st (Op.start f i) =
            { st with
              filter_ip := pyStrip f, iface := i, stats := Stats.zero,
              snifferRef := true, liveSniffers := st.liveSniffers + 1, running := true } := by
          simp [applyOp, CaptureState.start, hr']
        have hacf : allCountedFiltered st acc (Op.start f i :: rest) =
            allCountedFiltered (applyOp st (Op.start f i)) true rest := by
          simp [allCountedFiltered, hr']
        rw [hacf]
        refine ih _ true ?_ ?_
        · rw [hst]; exact Nat.le_refl 0
        · rw [hst]; simp [Stats.zero]
    | set_filter ip =>
      have hacf : allCountedFiltered st acc (Op.set_filter ip :: rest) =
          allCountedFiltered (applyOp st (Op.set_filter ip)) acc rest := rfl
      rw [hacf]
      exact ih _ acc h1 h2
    | stop =>
      have hacf : allCountedFiltered st acc (Op.stop :: rest) =
          allCountedFiltered (applyOp st Op.stop) acc rest := rfl
      rw [hacf]
      exact ih _ acc h1 h2
    | packet fr =>
      by_cases hr : retains st fr = true
      · have hok : st.packet_ok fr.src fr.dst = true := by
          simp only [retains, Bool.and_eq_true] at hr
          exact hr.2
        by_cases hf : st.filter_ip = ""
        · -- counted under an empty filter: total grows, in/out do not
          have hone : applyOp st (Op.packet fr) = st.on_packet fr := rfl
          have hstats : (st.on_packet fr).stats =
              { st.stats with
                packets_total := st.stats.packets_total + 1
                bytes_total := st.stats.bytes_total + fr.len } := by
            rw [on_packet_stats_retained st fr hr, hf, updateDirStats_empty]
          have hacf : allCountedFiltered st acc (Op.packet fr :: rest) =
              allCountedFiltered (applyOp st (Op.packet fr)) false rest := by
            simp [allCountedFiltered, hr, hf]
          rw [hacf]
          refine ih _ false ?_ ?_
          · rw [hone, hstats]; simp; omega
          · rw [hone, hstats]; simp; omega
        · -- counted under a non-empty filter: in+out and total grow together
          have hone : applyOp st (Op.packet fr) = st.on_packet fr := rfl
          have hsd : st.filter_ip = fr.src ∨ st.filter_ip = fr.dst :=
            packet_ok_cases st fr.src fr.dst hok hf
          have hsum : (st.on_packet fr).stats.packets_in +
              (st.on_packet fr).stats.packets_out =
              st.stats.packets_in + st.stats.packets_out + 1 := by
            rw [on_packet_stats_retained st fr hr]
            exact updateDirStats_sum _ _ _ _ _ hf hsd
          have htot : (st.on_packet fr).stats.packets_total =
              st.stats.packets_total + 1 := by
            rw [on_packet_stats_retained st fr hr, updateDirStats_total]
          have hbne : (st.filter_ip != "") = true := by simp [hf]
          have hacf : allCountedFiltered st acc (Op.packet fr :: rest) =
              allCountedFiltered (applyOp st (Op.packet fr)) acc rest := by
            simp [allCountedFiltered, hr, hbne]
          rw [hacf]
          refine ih _ acc ?_ ?_
          · rw [hone, hsum, htot]; omega
          · rw [hone, hsum, htot]
            constructor
            · intro h; exact h2.1 (by omega)
            · intro h; have := h2.2 h; omega
      · have hr' : retains st fr = false := by revert hr; cases retains st fr <;> simp
        have hone : applyOp st (Op.packet fr) = st :=
          on_packet_not_retained st fr hr'
        have hacf : allCountedFiltered st acc (Op.packet fr :: rest) =
            allCountedFiltered (applyOp st (Op.packet fr)) acc rest := by
          simp [allCountedFiltered, hr']
        rw [hacf]
        exact ih _ acc (by rw [hone]; exact h1) (by rw [hone]; exact h2)

/-- C9 counterexample: `packets_in + packets_out = packets_total` can hold
in a reachable state whose filter is empty (a freshly started session with
no frames yet: `0 + 0 = 0`), so equality does not force a non-empty filter. -/
theorem c9_equality_empty_filter_counterexample :
    ((runOps (CaptureState.init 2000) [Op.start "" none]).stats.packets_in +
      (runOps (CaptureState.init 2000) [Op.start "" none]).stats.packets_out =
      (runOps (CaptureState.init 2000) [Op.start "" none]).stats.packets_total) ∧
    (runOps (CaptureState.init 2000) [Op.start "" none]).filter_ip = "" := by
  decide

/-- C9 (amended): a frame is retained iff it is an IP frame and the filter
is empty or equals its src or dst; a non-retained frame leaves the state
unchanged while a retained one is appended and counted; and in every
reachable state `packets_in + packets_out ≤ packets_total`, with equality
iff every frame counted since the last fresh start was retained under a
non-empty filter (vacuously including the no-frames case, whatever the
filter). -/
theorem c9_retention_and_inequality :
    (∀ (st : CaptureState) (fr : Frame),
      (retains st fr = true ↔
        fr.hasIP = true ∧
          (st.filter_ip = "" ∨ st.filter_ip = fr.src ∨ st.filter_ip = fr.dst)) ∧
      (retains st fr = false → st.on_packet fr = st) ∧
      (retains st fr = true →
        (st.on_packet fr).stats.packets_total = st.stats.packets_total + 1 ∧
        (st.on_packet fr).packets = dequeAppend st.max_packets st.packets
          { id := st.next_id, src := fr.src, dst := fr.dst
            protocol := protoName fr.proto, length := fr.len })) ∧
    (∀ (cap : Nat) (ops : List Op),
      (runOps (CaptureState.init cap) ops).stats.packets_in +
        (runOps (CaptureState.init cap) ops).stats.packets_out ≤
        (runOps (CaptureState.init cap) ops).stats.packets_total ∧
      ((runOps (CaptureState.init cap) ops).stats.packets_in +
          (runOps (CaptureState.init cap) ops).stats.packets_out =
          (runOps (CaptureState.init cap) ops).stats.packets_total ↔
        allCountedFiltered (CaptureState.init cap) true ops = true)) := by
  refine ⟨?_, ?_⟩
  · intro st fr
    refine ⟨retains_iff st fr, on_packet_not_retained st fr, ?_⟩
    intro hr
    constructor
    · rw [on_packet_stats_retained st fr hr, updateDirStats_total]
    · rw [on_packet_retained st fr hr]
  · intro cap ops
    exact c9_inv ops (CaptureState.init cap) true (by simp [CaptureState.init, Stats.zero])
      (by simp [CaptureState.init, Stats.zero])

/-- Witness for C9: the hypotheses of the middle conjuncts discharged at a
filtered state with one matching and one non-matching frame. -/
theorem c9_retention_witness :
    (retains (runOps (CaptureState.init 2000) [Op.start "10.0.0.5" none])
        { hasIP := true, src := "9.9.9.9", dst := "8.8.8.8", proto := 6, len := 10 } = false) ∧
    ((runOps (CaptureState.init 2000) [Op.start "10.0.0.5" none]).on_packet
        { hasIP := true, src := "9.9.9.9", dst := "8.8.8.8", proto := 6, len := 10 } =
      runOps (CaptureState.init 2000) [Op.start "10.0.0.5" none]) ∧
    (retains (runOps (CaptureState.init 2000) [Op.start "10.0.0.5" none])
        { hasIP := true, src := "10.0.0.5", dst := "8.8.8.8", proto := 6, len := 10 } = true) ∧
    ((runOps (CaptureState.init 2000) [Op.start "10.0.0.5" none]).on_packet
        { hasIP := true, src := "10.0.0.5", dst := "8.8.8.8", proto := 6, len := 10 }).stats.packets_total =
      (runOps (CaptureState.init 2000) [Op.start "10.0.0.5" none]).stats.packets_total + 1 :=
  ⟨by decide,
   ((c9_retention_and_inequality.1 (runOps (CaptureState.init 2000) [Op.start "10.0.0.5" none])
      { hasIP := true, src := "9.9.9.9", dst := "8.8.8.8", proto := 6, len := 10 }).2.1
      (by decide)),
   by decide,
   ((c9_retention_and_inequality.1 (runOps (CaptureState.init 2000) [Op.start "10.0.0.5" none])
      { hasIP := true, src := "10.0.0.5", dst := "8.8.8.8", proto := 6, len := 10 }).2.2
      (by decide)).1⟩

/-! ## Claim C2 : gateway_mac_changed emission -/

/-- C2: on every query, `gateway_mac_changed` is emitted exactly when the
currently resolved gateway IP is non-empty and equals the stored gateway
IP, the stored gateway MAC is present and non-empty, and the currently
resolved gateway MAC is non-empty and differs from the stored one; it is
never emitted on the very first query (both stored values `None`); and the
stored pair is replaced by the current observation only after the
comparison (and only when IP and MAC both resolved), so each comparison is
against the immediately prior stored observation. -/
theorem c2_gateway_mac_changed :
    ∀ (st : GatewayState) (obs : GatewayObs),
      ((computeGatewayStep st obs).1 = true ↔
        ∃ ip m, obs.gw_ip = some ip ∧ ip ≠ "" ∧ obs.macFor ≠ "" ∧
          st.gateway_ip_last = some ip ∧ st.gateway_mac_last = some m ∧
          m ≠ "" ∧ m ≠ obs.macFor) ∧
      (computeGatewayStep initGatewayState obs).1 = false ∧
      ((computeGatewayStep st obs).2 =
        if obs.resolved then
          { gateway_ip_last := obs.gw_ip, gateway_mac_last := some obs.macFor }
        else st) := by
  intro st obs
  refine ⟨?_, ?_, ?_⟩
  · cases hip : obs.gw_ip with
    | none => simp [computeGatewayStep, hip]
    | some ip =>
      by_cases hipe : ip = ""
      · subst hipe; simp [computeGatewayStep, hip]
      · by_cases hmac : obs.macFor = ""
        · simp [computeGatewayStep, hip, hipe, hmac]
        · cases hlast : st.gateway_mac_last with
          | none =>
            simp [computeGatewayStep, hip, hipe, hmac, hlast, pyTruthyOpt]
          | some m =>
            by_cases hme : m = ""
            · subst hme
              simp [computeGatewayStep, hip, hipe, hmac, hlast, pyTruthyOpt]
            · simp [computeGatewayStep, hip, hipe, hmac, hlast, pyTruthyOpt, hme]
  · cases hip : obs.gw_ip with
    | none => simp [computeGatewayStep, hip]
    | some ip =>
      by_cases hipe : ip = ""
      · subst hipe; simp [computeGatewayStep, hip]
      · by_cases hmac : obs.macFor = ""
        · simp [computeGatewayStep, hip, hipe, hmac]
        · simp [computeGatewayStep, initGatewayState, hip, hipe, hmac, pyTruthyOpt]
  · cases hip : obs.gw_ip with
    | none => simp [computeGatewayStep, GatewayObs.resolved, hip, pyTruthyOpt]
    | some ip =>
      by_cases hipe : ip = ""
      · subst hipe
        simp [computeGatewayStep, GatewayObs.resolved, hip, pyTruthyOpt]
      · by_cases hmac : obs.macFor = ""
        · simp [computeGatewayStep, GatewayObs.resolved, hip, hipe, hmac, pyTruthyOpt]
        · simp [computeGatewayStep, GatewayObs.resolved, hip, hipe, hmac, pyTruthyOpt]

/-! ## Claim C5 : ARP conflict event and duplicate_ip_mapping indicator -/

theorem length_insertSortedStr (s : String) (l : List String) :
    (insertSortedStr s l).length = l.length + 1 := by
  induction l with
  | nil => rfl
  | cons t rest ih =>
    simp only [insertSortedStr]
    split
    · simp
    · simp [ih]

theorem length_sortStrings (l : List String) :
    (sortStrings l).length = l.length := by
  induction l with
  | nil => rfl
  | cons s rest ih =>
    rw [show sortStrings (s :: rest) = insertSortedStr s (sortStrings rest) from rfl,
      length_insertSortedStr, ih, List.length_cons]

/-- C5: two ARP frames for `192.168.1.1` carrying MACs `aa:…` then `bb:…`
produce exactly one `ip_conflict_suspected` event (newest first, recorded
with the set as it was before the new MAC was added), and
`compute_indicators` then reports a `duplicate_ip_mapping` conflict for
that IP listing both MACs; in general, an IP appears in the conflict list
iff its accumulated MAC set has more than one member, and the indicator is
emitted iff some IP does. -/
theorem c5_duplicate_ip_mapping :
    (arpCallback (arpCallback initArpState "192.168.1.1" "aa:aa:aa:aa:aa:aa" 1)
        "192.168.1.1" "bb:bb:bb:bb:bb:bb" 2).arp_events =
      [{ kind := "ip_conflict_suspected", ip := "192.168.1.1"
         new_mac := "bb:bb:bb:bb:bb:bb", known_macs := ["aa:aa:aa:aa:aa:aa"], op := 2 }] ∧
    duplicateConflicts
        (arpCallback (arpCallback initArpState "192.168.1.1" "aa:aa:aa:aa:aa:aa" 1)
          "192.168.1.1" "bb:bb:bb:bb:bb:bb" 2).ip_to_macs =
      [("192.168.1.1", ["aa:aa:aa:aa:aa:aa", "bb:bb:bb:bb:bb:bb"])] ∧
    duplicateIndicatorEmitted
        (arpCallback (arpCallback initArpState "192.168.1.1" "aa:aa:aa:aa:aa:aa" 1)
          "192.168.1.1" "bb:bb:bb:bb:bb:bb" 2).ip_to_macs = true ∧
    (∀ (m : List (String × List String)) (ip : String) (macs : List String),
      (ip, macs) ∈ m →
      (((ip, sortStrings macs) ∈ duplicateConflicts m ↔ 1 < macs.length) ∧
        (duplicateIndicatorEmitted m = true ↔ ∃ q ∈ m, 1 < q.2.length))) := by
  refine ⟨by decide, by decide, by decide, ?_⟩
  intro m ip macs hmem
  constructor
  · constructor
    · intro h
      simp only [duplicateConflicts, List.mem_map, List.mem_filter] at h
      obtain ⟨p, ⟨hp, hplen⟩, heq⟩ := h
      have h2 : sortStrings p.2 = sortStrings macs := congrArg Prod.snd heq
      have h3 := congrArg List.length h2
      rw [length_sortStrings, length_sortStrings] at h3
      simp only [decide_eq_true_eq] at hplen
      omega
    · intro h
      simp only [duplicateConflicts, List.mem_map]
      exact ⟨(ip, macs), List.mem_filter.2 ⟨hmem, by simpa using h⟩, rfl⟩
  · have hiff : duplicateIndicatorEmitted m = true ↔
        m.filter (fun p => decide (1 < p.2.length)) ≠ [] := by
      simp [duplicateIndicatorEmitted, List.isEmpty_iff]
    rw [hiff, Ne, List.filter_eq_nil_iff]
    simp

/-- Witness for C5: the membership hypothesis of the general part
discharged on the concrete one-entry map with two MACs. -/
theorem c5_duplicate_ip_mapping_witness :
    ((("192.168.1.1" : String), ["aa:aa:aa:aa:aa:aa", "bb:bb:bb:bb:bb:bb"]) ∈
        [(("192.168.1.1" : String), (["aa:aa:aa:aa:aa:aa", "bb:bb:bb:bb:bb:bb"] : List String))]) ∧
    ((("192.168.1.1", sortStrings ["aa:aa:aa:aa:aa:aa", "bb:bb:bb:bb:bb:bb"]) ∈
        duplicateConflicts
          [(("192.168.1.1" : String), (["aa:aa:aa:aa:aa:aa", "bb:bb:bb:bb:bb:bb"] : List String))] ↔
      1 < (["aa:aa:aa:aa:aa:aa", "bb:bb:bb:bb:bb:bb"] : List String).length) ∧
      (duplicateIndicatorEmitted
          [(("192.168.1.1" : String), (["aa:aa:aa:aa:aa:aa", "bb:bb:bb:bb:bb:bb"] : List String))] = true ↔
        ∃ q ∈ [(("192.168.1.1" : String), (["aa:aa:aa:aa:aa:aa", "bb:bb:bb:bb:bb:bb"] : List String))],
          1 < q.2.length)) :=
  ⟨by decide,
   c5_duplicate_ip_mapping.2.2.2
     [("192.168.1.1", ["aa:aa:aa:aa:aa:aa", "bb:bb:bb:bb:bb:bb"])]
     "192.168.1.1" ["aa:aa:aa:aa:aa:aa", "bb:bb:bb:bb:bb:bb"] (by decide)⟩

/-! ## Claim C3 : the discovery guard is Python is_private, not RFC1918 -/

/-- C3 divergence: the loopback network `127.0.0.0/8` is not an RFC1918
private range, yet the guard of `api_discover_start` accepts it (Python's
`is_private` is true for it) and spawns the sweep; by contrast a genuinely
public network such as `8.8.8.0/24` is rejected before any ping is issued
and with the job state unchanged, as the claim describes. -/
theorem c3_private_guard_divergence :
    (api_discover_start { job_running := false, pingsIssued := 0 }
        { addr := v4 127 0 0 0, prefixLen := 8 } 128).1 =
      DiscoverResponse.started { addr := v4 127 0 0 0, prefixLen := 8 } 128 ∧
    (api_discover_start { job_running := false, pingsIssued := 0 }
        { addr := v4 127 0 0 0, prefixLen := 8 } 128).2.job_running = true ∧
    IPv4Net.is_private { addr := v4 127 0 0 0, prefixLen := 8 } = true ∧
    isRFC1918Network { addr := v4 127 0 0 0, prefixLen := 8 } = false ∧
    api_discover_start { job_running := false, pingsIssued := 0 }
        { addr := v4 8 8 8 0, prefixLen := 24 } 128 =
      (DiscoverResponse.rejectedNotPrivate, { job_running := false, pingsIssued := 0 }) := by
  decide

/-! ## Claim C10 : failed lease import leaves the stored leases unchanged -/

/-- C10: an import whose input parses to zero lease rows (empty,
unreadable, or unrecognised text) returns a 400 error and leaves the
stored lease set exactly as it was — a subsequent leases query returns
what it returned before — while a successful parse replaces the stored
set wholesale. -/
theorem c10_lease_import_atomic :
    ∀ (cur : List Lease) (t : String),
      (parseRouterLeasesText t = [] →
        api_router_leases_import cur (ImportBody.jsonText t) =
          ({ ok := false, status := 400, count := 0 }, cur) ∧
        api_router_leases_import cur (ImportBody.fileText t) =
          ({ ok := false, status := 400, count := 0 }, cur) ∧
        api_router_leases (api_router_leases_import cur (ImportBody.jsonText t)).2 =
          api_router_leases cur) ∧
      api_router_leases_import cur ImportBody.fileUnreadable =
        ({ ok := false, status := 400, count := 0 }, cur) ∧
      (parseRouterLeasesText t ≠ [] →
        api_router_leases_import cur (ImportBody.jsonText t) =
          ({ ok := true, status := 200, count := (parseRouterLeasesText t).length },
            parseRouterLeasesText t)) := by
  intro cur t
  refine ⟨?_, rfl, ?_⟩
  · intro h
    have he : (parseRouterLeasesText t).isEmpty = true := by simp [h]
    refine ⟨?_, ?_, ?_⟩ <;>
      simp [api_router_leases_import, api_router_leases, he]
  · intro h
    have he : (parseRouterLeasesText t).isEmpty = false := by
      simp [List.isEmpty_iff, h]
    simp [api_router_leases_import, he]

/-- Witness for C10: the empty input parses to no rows and leaves a
non-trivial stored set untouched; a small CSV parses to one row and
replaces it. -/
theorem c10_lease_import_atomic_witness :
    (parseRouterLeasesText "" = [] ∧
      api_router_leases_import
          [{ ip := "10.0.0.9", mac := "11:22:33:44:55:66", hostname := "old", source := "router_csv" }]
          (ImportBody.jsonText "") =
        ({ ok := false, status := 400, count := 0 },
          [{ ip := "10.0.0.9", mac := "11:22:33:44:55:66", hostname := "old", source := "router_csv" }]) ∧
      api_router_leases_import
          [{ ip := "10.0.0.9", mac := "11:22:33:44:55:66", hostname := "old", source := "router_csv" }]
          (ImportBody.fileText "") =
        ({ ok := false, status := 400, count := 0 },
          [{ ip := "10.0.0.9", mac := "11:22:33:44:55:66", hostname := "old", source := "router_csv" }]) ∧
      api_router_leases
          (api_router_leases_import
            [{ ip := "10.0.0.9", mac := "11:22:33:44:55:66", hostname := "old", source := "router_csv" }]
            (ImportBody.jsonText "")).2 =
        api_router_leases
          [{ ip := "10.0.0.9", mac := "11:22:33:44:55:66", hostname := "old", source := "router_csv" }]) ∧
    (parseRouterLeasesText "ip,mac\n1.2.3.4,AA:BB:CC:DD:EE:FF" ≠ [] ∧
      api_router_leases_import
          [{ ip := "10.0.0.9", mac := "11:22:33:44:55:66", hostname := "old", source := "router_csv" }]
          (ImportBody.jsonText "ip,mac\n1.2.3.4,AA:BB:CC:DD:EE:FF") =
        ({ ok := true, status := 200
           count := (parseRouterLeasesText "ip,mac\n1.2.3.4,AA:BB:CC:DD:EE:FF").length },
          parseRouterLeasesText "ip,mac\n1.2.3.4,AA:BB:CC:DD:EE:FF")) :=
  ⟨⟨by decide,
    (c10_lease_import_atomic
      [{ ip := "10.0.0.9", mac := "11:22:33:44:55:66", hostname := "old", source := "router_csv" }]
      "").1 (by decide)⟩,
   ⟨by decide,
    (c10_lease_import_atomic
      [{ ip := "10.0.0.9", mac := "11:22:33:44:55:66", hostname := "old", source := "router_csv" }]
      "ip,mac\n1.2.3.4,AA:BB:CC:DD:EE:FF").2.2 (by decide)⟩⟩

end NetworkMonitor
